import Mathlib

/-!
Verification of the cabanuelas weather API (`src/main.py`) against its
specification.

The Python program is a single request/response pipeline:
`fetch_weather_data` (external provider call, returns a pandas dataframe with
columns `date`, `weather_code` (float, possibly NaN), `day`, `month`),
`map_weather_code_to_condition` (pure classifier), `aggregate_weather_data`
(pandas groupby/Counter aggregation that also mutates its input dataframe by
adding a `weather_condition` column in place), and the `get_weather` handler
(catch-all `try/except` returning `{"error": str(e)}`).

The shallow embedding below models:
  * a dataframe as a `List Row`, where a `Row` carries the columns of the
    dataframe produced by `fetch_weather_data` plus an optional
    `weather_condition` column (`none` before line 87 of the source runs);
  * the float `weather_code` column as `PyFloat`: `nan`, or an exact rational
    value.  Python compares floats to the table's small integers by exact
    mathematical value (and every table integer is exactly representable in
    float32), and `NaN == n` is false, so `ℚ` plus a `nan` point models the
    comparisons in `map_weather_code_to_condition` exactly;
  * pandas `groupby(['month','day'])` (default `sort=True`) as: distinct keys
    in order of first appearance, sorted ascending lexicographically, each key
    grouping the matching rows in their original order;
  * `collections.Counter` followed by `dict` as an association list from each
    distinct value (in first-appearance order) to its multiplicity;
  * the in-place column assignment of line 87 by having the aggregator return
    the mutated dataframe alongside its records: `aggregate_weather_data`
    returns `(new dataframe state, records)`;
  * a raised exception as a `PyException` carrying its `str` rendering, and
    the handler as a function from the fetch outcome to the response payload.
-/

/-- A float value as it appears in the `weather_code` column: NaN, or an exact
numeric value.  Exact rationals model Python float/int `==` comparisons
faithfully for the small integers of the classification table. -/
inductive PyFloat : Type
  | nan : PyFloat
  | val : ℚ → PyFloat
deriving DecidableEq, Repr

/-- Python `x == n` for a float `x` and an integer `n`: false for NaN, exact
value comparison otherwise. -/
def PyFloat.eqInt : PyFloat → Int → Bool
  | .nan, _ => false
  | .val q, n => q == (n : ℚ)

/-- Python `x in [n1, n2, ...]` for a float `x` and a list of integer
literals: membership by `==`. -/
def memInts (x : PyFloat) (l : List Int) : Bool :=
  l.any (fun n => x.eqInt n)

/-- `map_weather_code_to_condition` (src/main.py lines 71-82): the if/elif
chain of list-membership tests, in source order, returning the condition
strings. -/
def map_weather_code_to_condition (weather_code : PyFloat) : String :=
  if memInts weather_code [0, 1, 2] then "sunny"
  else if memInts weather_code [3, 45, 48] then "cloudy"
  else if memInts weather_code [51, 53, 55, 80, 81, 82, 61, 63, 65, 56, 57, 66, 67, 95, 96, 99]
    then "rainy"
  else if memInts weather_code [71, 73, 75, 77, 85, 86] then "snowy"
  else "unknown"

/-- One row of the dataframe built by `fetch_weather_data` (src/main.py lines
54-66): a `date` (opaque here; only its derived `month`/`day` columns are read
by the aggregator), the float `weather_code`, the derived `day` and `month`
columns, and the `weather_condition` column that exists only after
`aggregate_weather_data` assigns it (line 87) — `none` beforehand. -/
structure Row where
  date : Nat
  weather_code : PyFloat
  day : Nat
  month : Nat
  weather_condition : Option String := none
deriving DecidableEq, Repr

/-- The (month, day) grouping key of a row, as used by
`groupby(['month','day'])` (src/main.py line 90). -/
def rowKey (r : Row) : Nat × Nat :=
  (r.month, r.day)

/-- Line 87 of the source:
`dataframe["weather_condition"] = dataframe["weather_code"].apply(map_weather_code_to_condition)`,
an in-place column assignment on the input dataframe. -/
def assignConditions (df : List Row) : List Row :=
  df.map fun r =>
    { r with weather_condition := some (map_weather_code_to_condition r.weather_code) }

/-- Distinct elements of `l` in order of first appearance, given the elements
already seen.  Models the key-discovery order of pandas `groupby` and the
insertion order of `collections.Counter` / `dict`. -/
def firstDedupAux {α : Type} [DecidableEq α] (seen : List α) : List α → List α
  | [] => []
  | a :: l => if a ∈ seen then firstDedupAux seen l else a :: firstDedupAux (a :: seen) l

/-- Distinct elements of a list in order of first appearance. -/
def firstDedup {α : Type} [DecidableEq α] (l : List α) : List α :=
  firstDedupAux [] l

/-- `collections.Counter` applied to a list of condition strings, then
converted to a `dict` (src/main.py lines 93 and 96): each distinct string in
first-appearance order, paired with its number of occurrences. -/
def counter (l : List String) : List (String × Nat) :=
  (firstDedup l).map fun s => (s, l.count s)

/-- The non-strict lexicographic order on (month, day) keys by which pandas
`groupby` (default `sort=True`) orders the groups. -/
def keyLe (a b : Nat × Nat) : Prop :=
  a.1 < b.1 ∨ (a.1 = b.1 ∧ a.2 ≤ b.2)

instance : DecidableRel keyLe := fun a b => by
  unfold keyLe; exact inferInstance

instance : IsTotal (Nat × Nat) keyLe :=
  ⟨by intro a b; unfold keyLe; omega⟩

instance : IsTrans (Nat × Nat) keyLe :=
  ⟨by intro a b c; unfold keyLe; omega⟩

/-- The strict lexicographic order on (month, day) keys: ascending month,
then ascending day within equal months. -/
def keyLt (a b : Nat × Nat) : Prop :=
  a.1 < b.1 ∨ (a.1 = b.1 ∧ a.2 < b.2)

/-- The list of `weather_condition` values of the rows of `df` whose
(month, day) matches `k`, in row order: the per-group list built by
`groupby(['month','day'])['weather_condition'].apply(list)` (src/main.py
line 90).  At the point this runs, every row's `weather_condition` has been
assigned, so the `getD` default is never used. -/
def groupConditions (df : List Row) (k : Nat × Nat) : List String :=
  (df.filter fun r => r.month == k.1 && r.day == k.2).map
    fun r => r.weather_condition.getD ""

/-- One record of the aggregator's output
(`grouped.to_dict(orient="records")`, src/main.py line 101):
`{month, day, weather_counts}`. -/
structure AggRecord where
  month : Nat
  day : Nat
  weather_counts : List (String × Nat)
deriving DecidableEq, Repr

/-- `aggregate_weather_data` (src/main.py lines 85-101).  Returns the
dataframe state after the in-place assignment of line 87 together with the
list of records: for each distinct (month, day) key, sorted ascending
(pandas `groupby` default), the `Counter`-as-`dict` of the group's condition
strings. -/
def aggregate_weather_data (df : List Row) : List Row × List AggRecord :=
  (assignConditions df,
    (List.insertionSort keyLe (firstDedup ((assignConditions df).map rowKey))).map
      fun k =>
        { month := k.1, day := k.2,
          weather_counts := counter (groupConditions (assignConditions df) k) })

/-- A raised Python exception, identified by its `str` rendering (which may
be the empty string, e.g. for `Exception()`). -/
structure PyException where
  message : String
deriving DecidableEq, Repr

/-- Python `str(e)` for an exception. -/
def pyStr (e : PyException) : String :=
  e.message

/-- The JSON payload returned by the handler: either the list of aggregation
records, or the `{"error": <message>}` object. -/
inductive Response : Type
  | ok : List AggRecord → Response
  | err : String → Response
deriving DecidableEq, Repr

/-- The `get_weather` handler (src/main.py lines 104-114), abstracted over
the outcome of the provider call: `fetch` stands for `fetch_weather_data`,
whose network interaction is external to the core and may raise.  The handler
runs fetch then aggregation inside `try`, and on any raised exception returns
`{"error": str(e)}`; the classifier and aggregator themselves are total and
raise nothing. -/
def get_weather (fetch : ℚ → ℚ → Except PyException (List Row))
    (latitude longitude : ℚ) : Response :=
  match fetch latitude longitude with
  | Except.error e => Response.err (pyStr e)
  | Except.ok df => Response.ok (aggregate_weather_data df).snd

/-- The spec's classification lookup table (§4.2), stated from the spec's own
code sets, independently of the source's if/elif chain; used only to state
the refinement claim that the source reproduces the table exactly. -/
def classify_spec (code : Int) : String :=
  if code ∈ ([0, 1, 2] : List Int) then "sunny"
  else if code ∈ ([3, 45, 48] : List Int) then "cloudy"
  else if code ∈ ([51, 53, 55, 56, 57, 61, 63, 65, 66, 67, 80, 81, 82, 95, 96, 99] : List Int)
    then "rainy"
  else if code ∈ ([71, 73, 75, 77, 85, 86] : List Int) then "snowy"
  else "unknown"

/-! ### Helper lemmas about the classifier's membership tests -/

lemma beq_intCast_rat (m n : Int) : ((m : ℚ) == (n : ℚ)) = (m == n) := by
  by_cases h : m = n
  · simp [h]
  · have h' : (m : ℚ) ≠ (n : ℚ) := by exact_mod_cast h
    simp [h, h']

lemma memInts_val_intCast (code : Int) (l : List Int) :
    memInts (PyFloat.val (code : ℚ)) l = decide (code ∈ l) := by
  induction l with
  | nil => rfl
  | cons a l ih =>
    simp only [memInts, PyFloat.eqInt, List.any_cons, List.mem_cons] at *
    rw [ih, beq_intCast_rat]
    by_cases h : code = a <;> simp [h]

lemma memInts_nan (l : List Int) : memInts PyFloat.nan l = false := by
  induction l with
  | nil => rfl
  | cons a l ih => simp [memInts, PyFloat.eqInt] at *

lemma memInts_val_nonintegral (q : ℚ) (hq : q.den ≠ 1) (l : List Int) :
    memInts (PyFloat.val q) l = false := by
  unfold memInts
  rw [List.any_eq_false]
  intro n _
  rw [PyFloat.eqInt, beq_iff_eq]
  intro he
  exact hq (by rw [he, Rat.den_intCast])

/-- The source's if/elif chain agrees with the spec's table on every integer
code: shared between the table-refinement claim and the float claim. -/
lemma classify_int_eq_spec (code : Int) :
    map_weather_code_to_condition (PyFloat.val (code : ℚ)) = classify_spec code := by
  by_cases h0 : code ∈ ([0, 1, 2] : List Int)
  · simp only [List.mem_cons, List.not_mem_nil, or_false] at h0
    rcases h0 with rfl | rfl | rfl <;> decide
  by_cases h1 : code ∈ ([3, 45, 48] : List Int)
  · simp only [List.mem_cons, List.not_mem_nil, or_false] at h1
    rcases h1 with rfl | rfl | rfl <;> decide
  by_cases h2 : code ∈
      ([51, 53, 55, 56, 57, 61, 63, 65, 66, 67, 80, 81, 82, 95, 96, 99] : List Int)
  · simp only [List.mem_cons, List.not_mem_nil, or_false] at h2
    rcases h2 with rfl | rfl | rfl | rfl | rfl | rfl | rfl | rfl | rfl | rfl
      | rfl | rfl | rfl | rfl | rfl | rfl <;> decide
  by_cases h3 : code ∈ ([71, 73, 75, 77, 85, 86] : List Int)
  · simp only [List.mem_cons, List.not_mem_nil, or_false] at h3
    rcases h3 with rfl | rfl | rfl | rfl | rfl | rfl <;> decide
  · have hperm :
        ([51, 53, 55, 80, 81, 82, 61, 63, 65, 56, 57, 66, 67, 95, 96, 99] : List Int).Perm
          [51, 53, 55, 56, 57, 61, 63, 65, 66, 67, 80, 81, 82, 95, 96, 99] := by decide
    have h2' : code ∉
        ([51, 53, 55, 80, 81, 82, 61, 63, 65, 56, 57, 66, 67, 95, 96, 99] : List Int) :=
      fun hc => h2 (hperm.mem_iff.mp hc)
    simp [map_weather_code_to_condition, classify_spec, memInts_val_intCast, h0, h1, h2, h2', h3]

/-! ### Claim theorems: classifier -/

/-- C1: `classify(code)` is a pure total function reproducing the spec's
lookup table exactly: for every integer code it returns "sunny" iff the code
is in {0,1,2}, "cloudy" iff it is in {3,45,48}, "rainy" iff it is in
{51,53,55,56,57,61,63,65,66,67,80,81,82,95,96,99}, "snowy" iff it is in
{71,73,75,77,85,86}, and "unknown" for every other integer; it always returns
one of the five conditions ("never throws" holds because the embedding is a
total function, as is the Python if/elif chain of membership tests). -/
theorem classifier_reproduces_spec_table (code : Int) :
    (map_weather_code_to_condition (PyFloat.val (code : ℚ)) = "sunny" ↔
      code ∈ ([0, 1, 2] : List Int)) ∧
    (map_weather_code_to_condition (PyFloat.val (code : ℚ)) = "cloudy" ↔
      code ∈ ([3, 45, 48] : List Int)) ∧
    (map_weather_code_to_condition (PyFloat.val (code : ℚ)) = "rainy" ↔
      code ∈ ([51, 53, 55, 56, 57, 61, 63, 65, 66, 67, 80, 81, 82, 95, 96, 99] : List Int)) ∧
    (map_weather_code_to_condition (PyFloat.val (code : ℚ)) = "snowy" ↔
      code ∈ ([71, 73, 75, 77, 85, 86] : List Int)) ∧
    (map_weather_code_to_condition (PyFloat.val (code : ℚ)) = "unknown" ↔
      (code ∉ ([0, 1, 2] : List Int) ∧ code ∉ ([3, 45, 48] : List Int) ∧
       code ∉ ([51, 53, 55, 56, 57, 61, 63, 65, 66, 67, 80, 81, 82, 95, 96, 99] : List Int) ∧
       code ∉ ([71, 73, 75, 77, 85, 86] : List Int))) ∧
    map_weather_code_to_condition (PyFloat.val (code : ℚ)) ∈
      (["sunny", "cloudy", "rainy", "snowy", "unknown"] : List String) := by
  rw [classify_int_eq_spec]
  by_cases h0 : code ∈ ([0, 1, 2] : List Int)
  · simp only [List.mem_cons, List.not_mem_nil, or_false] at h0
    rcases h0 with rfl | rfl | rfl <;> decide
  by_cases h1 : code ∈ ([3, 45, 48] : List Int)
  · simp only [List.mem_cons, List.not_mem_nil, or_false] at h1
    rcases h1 with rfl | rfl | rfl <;> decide
  by_cases h2 : code ∈
      ([51, 53, 55, 56, 57, 61, 63, 65, 66, 67, 80, 81, 82, 95, 96, 99] : List Int)
  · simp only [List.mem_cons, List.not_mem_nil, or_false] at h2
    rcases h2 with rfl | rfl | rfl | rfl | rfl | rfl | rfl | rfl | rfl | rfl
      | rfl | rfl | rfl | rfl | rfl | rfl <;> decide
  by_cases h3 : code ∈ ([71, 73, 75, 77, 85, 86] : List Int)
  · simp only [List.mem_cons, List.not_mem_nil, or_false] at h3
    rcases h3 with rfl | rfl | rfl | rfl | rfl | rfl <;> decide
  · simp [classify_spec, h0, h1, h2, h3]

/-- C10: weather codes arrive from the provider as floats
(`ValuesAsNumpy()` yields a float array, src/main.py line 52); a float value
exactly equal to an integer classifies as that integer does under the spec's
table, and any value that is not an integer — in particular NaN, pandas'
representation of a missing value — classifies as "unknown". -/
theorem float_codes_classify_like_integers (x : PyFloat) :
    (∀ n : Int, x = PyFloat.val (n : ℚ) →
      map_weather_code_to_condition x = classify_spec n) ∧
    ((∀ q : ℚ, x = PyFloat.val q → q.den ≠ 1) →
      map_weather_code_to_condition x = "unknown") := by
  constructor
  · rintro n rfl
    exact classify_int_eq_spec n
  · intro h
    cases x with
    | nan =>
      simp [map_weather_code_to_condition, memInts_nan]
    | val q =>
      have hd : q.den ≠ 1 := h q rfl
      simp [map_weather_code_to_condition, memInts_val_nonintegral q hd]

/-- Witness for C10: 61.0 classifies as the integer 61 does ("rainy"),
the non-integral value 61.5 classifies as "unknown", and NaN classifies as
"unknown". -/
theorem float_codes_classify_like_integers_witness :
    map_weather_code_to_condition (PyFloat.val ((61 : Int) : ℚ)) = classify_spec 61 ∧
    map_weather_code_to_condition (PyFloat.val (123 / 2 : ℚ)) = "unknown" ∧
    map_weather_code_to_condition PyFloat.nan = "unknown" :=
  ⟨(float_codes_classify_like_integers (PyFloat.val ((61 : Int) : ℚ))).1 61 rfl,
   (float_codes_classify_like_integers (PyFloat.val (123 / 2 : ℚ))).2
     (by intro q h; cases h; norm_num),
   (float_codes_classify_like_integers PyFloat.nan).2
     (fun q h => PyFloat.noConfusion h)⟩

/-! ### Helper lemmas about first-appearance deduplication and the aggregator -/

lemma mem_firstDedupAux {α : Type} [DecidableEq α] (x : α) (l : List α) :
    ∀ seen : List α, x ∈ firstDedupAux seen l ↔ x ∈ l ∧ x ∉ seen := by
  induction l with
  | nil => intro seen; simp [firstDedupAux]
  | cons a l ih =>
    intro seen
    unfold firstDedupAux
    by_cases ha : a ∈ seen
    · rw [if_pos ha, ih]
      by_cases hxa : x = a
      · subst hxa; simp [ha]
      · simp [hxa]
    · rw [if_neg ha]
      by_cases hxa : x = a
      · subst hxa; simp [ha]
      · simp only [List.mem_cons, ih, hxa, false_or]

lemma mem_firstDedup {α : Type} [DecidableEq α] (x : α) (l : List α) :
    x ∈ firstDedup l ↔ x ∈ l := by
  unfold firstDedup
  rw [mem_firstDedupAux]
  simp

lemma nodup_firstDedupAux {α : Type} [DecidableEq α] (l : List α) :
    ∀ seen : List α, (firstDedupAux seen l).Nodup := by
  induction l with
  | nil => intro seen; simp [firstDedupAux]
  | cons a l ih =>
    intro seen
    unfold firstDedupAux
    by_cases ha : a ∈ seen
    · rw [if_pos ha]; exact ih seen
    · rw [if_neg ha, List.nodup_cons]
      exact ⟨fun hmem =>
        ((mem_firstDedupAux a l (a :: seen)).mp hmem).2 (List.mem_cons_self a seen),
        ih (a :: seen)⟩

lemma nodup_firstDedup {α : Type} [DecidableEq α] (l : List α) :
    (firstDedup l).Nodup :=
  nodup_firstDedupAux l []

lemma sum_counter (l : List String) : ((counter l).map Prod.snd).sum = l.length := by
  unfold counter
  rw [List.map_map]
  have hperm : (firstDedup l).Perm l.dedup :=
    List.perm_of_nodup_nodup_toFinset_eq (nodup_firstDedup l) l.nodup_dedup
      (by ext a; simp [List.mem_toFinset, mem_firstDedup, List.mem_dedup])
  calc ((firstDedup l).map fun s => l.count s).sum
      = (l.dedup.map fun s => l.count s).sum := (hperm.map _).sum_eq
    _ = l.length := List.sum_map_count_dedup_eq_length l

lemma map_rowKey_assign (df : List Row) :
    (assignConditions df).map rowKey = df.map rowKey := by
  unfold assignConditions
  rw [List.map_map]
  rfl

lemma assignConditions_idem (df : List Row) :
    assignConditions (assignConditions df) = assignConditions df := by
  unfold assignConditions
  rw [List.map_map]
  rfl

lemma groupConditions_assign (df : List Row) (k : Nat × Nat) :
    groupConditions (assignConditions df) k
      = (df.filter fun r => r.month == k.1 && r.day == k.2).map
          fun r => map_weather_code_to_condition r.weather_code := by
  unfold groupConditions assignConditions
  rw [List.filter_map, List.map_map]
  rfl

/-- The (month, day) keys of the aggregator's records, in output order: the
distinct input keys sorted ascending lexicographically. -/
lemma output_keys_eq (df : List Row) :
    (aggregate_weather_data df).snd.map (fun rec => (rec.month, rec.day))
      = List.insertionSort keyLe (firstDedup (df.map rowKey)) := by
  unfold aggregate_weather_data
  rw [map_rowKey_assign, List.map_map]
  exact List.map_id _

/-! ### Claim theorems: aggregator -/

/-- C2: count conservation — for every input observation sequence and every
record of the aggregator's output, the sum of the values of its
`weather_counts` mapping equals the number of input observations whose
(month, day) matches the record's. -/
theorem weather_counts_sum_conservation (df : List Row) (rec : AggRecord)
    (hrec : rec ∈ (aggregate_weather_data df).snd) :
    (rec.weather_counts.map Prod.snd).sum
      = (df.filter fun r => r.month == rec.month && r.day == rec.day).length := by
  obtain ⟨k, hk, rfl⟩ := List.mem_map.mp hrec
  show ((counter (groupConditions (assignConditions df) k)).map Prod.snd).sum
    = (df.filter fun r => r.month == k.1 && r.day == k.2).length
  rw [sum_counter, groupConditions_assign, List.length_map]

/-- Sample input from the spec's §8 example: observations
(month=3, day=15, code=0), (month=3, day=15, code=61), (month=3, day=16,
code=95). -/
def sampleDf : List Row :=
  [{ date := 0, weather_code := PyFloat.val 0, day := 15, month := 3 },
   { date := 1, weather_code := PyFloat.val 61, day := 15, month := 3 },
   { date := 2, weather_code := PyFloat.val 95, day := 16, month := 3 }]

/-- The first output record for `sampleDf`:
{month: 3, day: 15, weather_counts: {sunny: 1, rainy: 1}}. -/
def sampleRec : AggRecord :=
  { month := 3, day := 15, weather_counts := [("sunny", 1), ("rainy", 1)] }

/-- Witness for C2 on the spec's §8 example. -/
theorem weather_counts_sum_conservation_witness :
    (sampleRec.weather_counts.map Prod.snd).sum
      = (sampleDf.filter fun r => r.month == sampleRec.month && r.day == sampleRec.day).length :=
  weather_counts_sum_conservation sampleDf sampleRec (by decide)

/-- C3: completeness of grouping — the (month, day) pairs of the aggregator's
output records are exactly the distinct (month, day) pairs of the input, each
appearing exactly once (no omissions, no duplicates). -/
theorem output_keys_exactly_input_keys (df : List Row) :
    ((aggregate_weather_data df).snd.map fun rec => (rec.month, rec.day)).Nodup ∧
    ∀ k : Nat × Nat,
      (k ∈ (aggregate_weather_data df).snd.map fun rec => (rec.month, rec.day)) ↔
        k ∈ df.map rowKey := by
  rw [output_keys_eq]
  constructor
  · exact (List.perm_insertionSort keyLe _).nodup_iff.mpr (nodup_firstDedup _)
  · intro k
    rw [(List.perm_insertionSort keyLe _).mem_iff, mem_firstDedup]

/-- C5: the (month, day) groups of the aggregator's output are strictly
ascending: by month, and by day within equal months (pandas `groupby` sorts
its keys).  The output is moreover deterministic for identical input since
the embedding of the aggregator is a function of the input dataframe alone. -/
theorem output_sorted_by_month_then_day (df : List Row) :
    List.Pairwise keyLt ((aggregate_weather_data df).snd.map fun rec => (rec.month, rec.day)) := by
  rw [output_keys_eq]
  have hs : List.Pairwise keyLe (List.insertionSort keyLe (firstDedup (df.map rowKey))) :=
    List.sorted_insertionSort keyLe _
  have hn : List.Pairwise (fun a b : Nat × Nat => a ≠ b)
      (List.insertionSort keyLe (firstDedup (df.map rowKey))) :=
    (List.perm_insertionSort keyLe _).nodup_iff.mpr (nodup_firstDedup _)
  refine (hs.and hn).imp ?_
  rintro ⟨a1, a2⟩ ⟨b1, b2⟩ ⟨hle, hne⟩
  have hne' : ¬(a1 = b1 ∧ a2 = b2) := fun h => hne (by rw [h.1, h.2])
  simp only [keyLe] at hle
  simp only [keyLt]
  omega

/-- C7: empty input yields empty output (and the aggregator does not fail —
it is a total function). -/
theorem empty_input_empty_output : aggregate_weather_data [] = ([], []) := rfl

/-- C8: running the aggregator a second time on the same (now mutated)
dataframe yields the identical result — same output records in the same
order, and the same dataframe state.  Together with the purity of the
embedding this is the claimed determinism/idempotence of repeated calls on
the same observation sequence. -/
theorem aggregation_idempotent (df : List Row) :
    aggregate_weather_data (aggregate_weather_data df).fst = aggregate_weather_data df := by
  unfold aggregate_weather_data
  simp only [assignConditions_idem]

/-- C6: an observation whose `weather_code` is missing (NaN in the dataframe)
classifies as "unknown" and is still counted in its (month, day) group's
`weather_counts`: the output has a record for the observation's key whose
"unknown" entry counts at least this observation. -/
theorem missing_code_counted_as_unknown (df : List Row) (r : Row)
    (hr : r ∈ df) (hnan : r.weather_code = PyFloat.nan) :
    map_weather_code_to_condition r.weather_code = "unknown" ∧
    ∃ rec ∈ (aggregate_weather_data df).snd,
      rec.month = r.month ∧ rec.day = r.day ∧
      ∃ n, ("unknown", n) ∈ rec.weather_counts ∧ 1 ≤ n := by
  have hcls : map_weather_code_to_condition r.weather_code = "unknown" := by
    rw [hnan]; simp [map_weather_code_to_condition, memInts_nan]
  refine ⟨hcls, ?_⟩
  have hkmem : rowKey r ∈
      List.insertionSort keyLe (firstDedup ((assignConditions df).map rowKey)) := by
    rw [(List.perm_insertionSort keyLe _).mem_iff, mem_firstDedup, map_rowKey_assign]
    exact List.mem_map_of_mem rowKey hr
  refine ⟨_, List.mem_map_of_mem _ hkmem, rfl, rfl, ?_⟩
  show ∃ n, ("unknown", n) ∈ counter (groupConditions (assignConditions df) (rowKey r)) ∧ 1 ≤ n
  have hu : "unknown" ∈ groupConditions (assignConditions df) (rowKey r) := by
    rw [groupConditions_assign]
    refine List.mem_map.mpr ⟨r, List.mem_filter.mpr ⟨hr, ?_⟩, hcls⟩
    simp [rowKey]
  refine ⟨(groupConditions (assignConditions df) (rowKey r)).count "unknown", ?_, ?_⟩
  · exact List.mem_map.mpr ⟨"unknown", (mem_firstDedup _ _).mpr hu, rfl⟩
  · exact List.count_pos_iff.mpr hu

/-- A February 29 observation with a missing (NaN) weather code. -/
def nanRow : Row := { date := 5, weather_code := PyFloat.nan, day := 29, month := 2 }

/-- Witness for C6: a one-row dataframe whose only observation has a missing
code. -/
theorem missing_code_counted_as_unknown_witness :
    map_weather_code_to_condition nanRow.weather_code = "unknown" ∧
    ∃ rec ∈ (aggregate_weather_data [nanRow]).snd,
      rec.month = nanRow.month ∧ rec.day = nanRow.day ∧
      ∃ n, ("unknown", n) ∈ rec.weather_counts ∧ 1 ≤ n :=
  missing_code_counted_as_unknown [nanRow] nanRow (by decide) rfl

/-! ### Claim theorems: mutation (C9) and the request handler (C4) -/

/-- A freshly fetched row, before aggregation: no `weather_condition`
column. -/
def freshRow : Row := { date := 3, weather_code := PyFloat.val 2, day := 1, month := 1 }

/-- C9 counterexample: the aggregator does mutate its input dataframe — after
`aggregate_weather_data` runs on a one-row dataframe, the dataframe state is
no longer the input (line 87 of the source assigned the `weather_condition`
column in place on the caller's dataframe). -/
theorem aggregator_mutates_input :
    (aggregate_weather_data [freshRow]).fst ≠ [freshRow] := by decide

/-- C9 amended: the only mutation the aggregator performs on its input is the
in-place `weather_condition` column assignment of line 87 — the dataframe
state it leaves behind is exactly the input rows with that column set, so
`date`, `weather_code`, `day` and `month` of every observation are unchanged
and rows are neither added, removed nor reordered. -/
theorem aggregator_mutation_only_assigns_condition_column (df : List Row) :
    (aggregate_weather_data df).fst = assignConditions df ∧
    (aggregate_weather_data df).fst.map (fun r => (r.date, r.weather_code, r.day, r.month))
      = df.map fun r => (r.date, r.weather_code, r.day, r.month) := by
  refine ⟨rfl, ?_⟩
  show (assignConditions df).map _ = _
  unfold assignConditions
  rw [List.map_map]
  rfl

/-- A provider call that fails with an exception whose `str` rendering is the
empty string — in Python, `str(Exception())` is `""`. -/
def emptyMessageFetch : ℚ → ℚ → Except PyException (List Row) :=
  fun _ _ => Except.error { message := "" }

/-- C4 counterexample: when the pipeline fails with an exception whose string
rendering is empty, the handler's payload message is empty — there is no
non-empty message, so the "non-empty message string" part of the claim fails
on `return {"error": str(e)}`. -/
theorem error_message_can_be_empty :
    ¬ ∃ m : String, get_weather emptyMessageFetch 999 0 = Response.err m ∧ m ≠ "" := by
  rintro ⟨m, hm, hne⟩
  have h0 : get_weather emptyMessageFetch 999 0 = Response.err "" := rfl
  rw [h0] at hm
  simp only [Response.err.injEq] at hm
  exact hne hm.symm

/-- C4 amended: for every request reaching the handler, whenever the provider
call fails the handler returns the structured payload `{"error": str(e)}` —
it never propagates the fault, and makes no distinction between error kinds;
the message is the exception's string rendering, which may be empty (the
classifier and aggregator are total and add no further failure points). -/
theorem handler_returns_error_payload (fetch : ℚ → ℚ → Except PyException (List Row))
    (lat lon : ℚ) (e : PyException) (hfail : fetch lat lon = Except.error e) :
    get_weather fetch lat lon = Response.err (pyStr e) := by
  unfold get_weather
  rw [hfail]

/-- A provider call failing the way the upstream client does on an
out-of-range latitude. -/
def outOfRangeFetch : ℚ → ℚ → Except PyException (List Row) :=
  fun _ _ => Except.error { message := "Latitude must be in range of -90 to 90 degrees." }

/-- Witness for the amended C4: a request with latitude 999 whose provider
call fails yields the structured error payload. -/
theorem handler_returns_error_payload_witness :
    get_weather outOfRangeFetch 999 0
      = Response.err (pyStr { message := "Latitude must be in range of -90 to 90 degrees." }) :=
  handler_returns_error_payload outOfRangeFetch 999 0
    { message := "Latitude must be in range of -90 to 90 degrees." } rfl
